import Mathlib

/-!
Shallow embedding of `main.py` from the `llm_summarizer_cli` repository.

The program fetches web pages (plain HTTP via aiohttp, or a rendered
headless-browser fetch via selenium), extracts title and body text with
BeautifulSoup, builds a two-message chat prompt and asks a language model
for a markdown summary.  `main` launches one pipeline per URL with
`asyncio.gather` and prints `(url, summary)` blocks in input order.

The embedding below models:
  * parsed markup as a first-child/next-sibling tree (`Dom`), with the
    BeautifulSoup operations the code uses (`find`, `.string`,
    `find_all` + `decompose`, `get_text(separator, strip=True)`),
  * `Website.__beautify` as `beautify` (fallible: calling
    `soup.body(...)` when `soup.body` is `None` raises `TypeError`),
  * the prompt construction of `Website.summarize` (note the call site
    passes `(self.title, self.text)` into the signature
    `generate_prompt(webpage_text, webpage_title)`),
  * `Website.ensure_http_format`,
  * the status handling of `scrape_using_requests` (none: the response
    body is read for any status),
  * the process lifecycle of `_scrape_using_selenium_sync`
    (`driver.quit()` is only reached when navigation and the page-source
    read succeed; there is no try/finally),
  * the coordinator of `main`: `asyncio.gather` associates each result
    with its task index, modelled by an arbitrary completion schedule
    filling a slot list, and exception propagation when a task raises.
-/

/-- A parsed markup forest in first-child/next-sibling form: `nil` is the
empty forest, `text s next` a text node (NavigableString) followed by its
later siblings, `elem tag children next` an element followed by its later
siblings.  A whole document is the forest of its top-level nodes. -/
inductive Dom where
  | nil : Dom
  | text (s : String) (next : Dom) : Dom
  | elem (tag : String) (children : Dom) (next : Dom) : Dom
  deriving Repr, DecidableEq

/-- The tag denylist `IRRELEVANT_TAGS` of `main.py` (lines 15-24). -/
def IRRELEVANT_TAGS : List String :=
  ["script", "style", "img", "input", "head", "title", "meta", "[document]"]

/-- BeautifulSoup `soup.find(tag)` (used via the shorthands `soup.title`
and `soup.body`): the first element with the given tag name in document
order (an element is visited before its children, children before later
siblings).  The hit is returned as its tag name paired with its children
forest. -/
def findTag (tag : String) : Dom → Option (String × Dom)
  | Dom.nil => none
  | Dom.text _ next => findTag tag next
  | Dom.elem t cs next =>
    if t == tag then some (t, cs)
    else
      match findTag tag cs with
      | some r => some r
      | none => findTag tag next

/-- BeautifulSoup `tag.string`, applied to the tag's children forest: the
single text child, descending through single-element children; `none`
models Python `None`. -/
def domString : Dom → Option String
  | Dom.text s Dom.nil => some s
  | Dom.elem _ cs Dom.nil => domString cs
  | _ => none

/-- `body(IRRELEVANT_TAGS)` followed by `decompose()` on each hit,
applied to the body's children forest: every descendant element whose
tag is in `tags` is removed, subtree and all (`find_all` matches
descendants only, so the body element itself is kept). -/
def stripDom (tags : List String) : Dom → Dom
  | Dom.nil => Dom.nil
  | Dom.text s next => Dom.text s (stripDom tags next)
  | Dom.elem t cs next =>
    if tags.contains t then stripDom tags next
    else Dom.elem t (stripDom tags cs) (stripDom tags next)

/-- All text-node strings of a forest, in document order (BeautifulSoup
`tag.strings` applied to the tag's children forest). -/
def allStrings : Dom → List String
  | Dom.nil => []
  | Dom.text s next => s :: allStrings next
  | Dom.elem _ cs next => allStrings cs ++ allStrings next

/-- Python `str.strip()`: whitespace removed from both ends. -/
def pyStrip (s : String) : String :=
  ⟨(((s.data.dropWhile Char.isWhitespace).reverse.dropWhile
      Char.isWhitespace).reverse)⟩

/-- Joining a list of strings with a separator. -/
def joinSep (sep : String) : List String → String
  | [] => ""
  | [s] => s
  | s :: rest => s ++ sep ++ joinSep sep rest

/-- BeautifulSoup `tag.get_text(separator, strip=True)` applied to the
tag's children forest: each string is stripped, strings that strip to
empty are dropped, the rest are joined with the separator. -/
def get_text (sep : String) (cs : Dom) : String :=
  joinSep sep (((allStrings cs).map pyStrip).filter (fun s => s ≠ ""))

/-- The `{"title": ..., "text": ...}` pair `__beautify` produces.
`title` is an `Option` because `soup.title.string` is Python `None`
when the title tag has no single string child. -/
structure ExtractedContent where
  title : Option String
  text : String
  deriving Repr, DecidableEq

/-- `Website.__beautify` (main.py lines 64-72), on an already-parsed
tree.  Line 66: `title = soup.title.string if soup.title else "No title
found"`.  Line 67: `soup.body(IRRELEVANT_TAGS)` — when the document has
no body element, `soup.body` is `None` and calling it raises
`TypeError`; otherwise the matching descendants are decomposed and line
69 reads `soup.body.get_text(separator="\n", strip=True)`. -/
def beautify (soup : Dom) : Except String ExtractedContent :=
  let title : Option String :=
    match findTag "title" soup with
    | some (_, cs) => domString cs
    | none => some "No title found"
  match findTag "body" soup with
  | none => Except.error "TypeError: NoneType object is not callable"
  | some (_, bodyCs) =>
    Except.ok ⟨title, get_text "\n" (stripDom IRRELEVANT_TAGS bodyCs)⟩

/-- The mocked page of the end-to-end scenario:
`<html><head><title>Example</title></head><body><script>x</script><p>Hello world</p></body></html>`. -/
def mockedSoup : Dom :=
  Dom.elem "html"
    (Dom.elem "head"
      (Dom.elem "title" (Dom.text "Example" Dom.nil) Dom.nil)
      (Dom.elem "body"
        (Dom.elem "script" (Dom.text "x" Dom.nil)
          (Dom.elem "p" (Dom.text "Hello world" Dom.nil) Dom.nil))
        Dom.nil))
    Dom.nil

example : beautify mockedSoup = Except.ok ⟨some "Example", "Hello world"⟩ := by
  rfl

/-- Whether a forest contains an element with the given tag anywhere. -/
def containsTag (tag : String) : Dom → Bool
  | Dom.nil => false
  | Dom.text _ next => containsTag tag next
  | Dom.elem t cs next => t == tag || containsTag tag cs || containsTag tag next

/-- The text-node strings of a forest that are NOT inside any element
whose tag is in `tags`: a walk that skips excluded subtrees entirely.
This is the specification-side description of what `decompose` leaves
behind. -/
def visibleStrings (tags : List String) : Dom → List String
  | Dom.nil => []
  | Dom.text s next => s :: visibleStrings tags next
  | Dom.elem t cs next =>
    if tags.contains t then visibleStrings tags next
    else visibleStrings tags cs ++ visibleStrings tags next

/-- One chat message, `{"role": ..., "content": ...}`. -/
structure Message where
  role : String
  content : String
  deriving Repr, DecidableEq

/-- The triple-quoted `SYSTEM_PROMPT` of main.py (lines 26-30). -/
def SYSTEM_PROMPT : String :=
  "\nYou are an assistant that analyzes the contents of a website\nand provides a short summary, ignoring text that might be navigation related.\nRespond in markdown.\n"

/-- `USER_PROMPT_TITLE_TEMPLATE` of main.py (line 31). -/
def USER_PROMPT_TITLE_TEMPLATE : String :=
  "You are looking at a website titled "

/-- The triple-quoted `USER_PROMPT_CONTENT_TEMPLATE` of main.py
(lines 32-36). -/
def USER_PROMPT_CONTENT_TEMPLATE : String :=
  "\nThe contents of this website is as follows;\nplease provide a short summary of this website in markdown.\nIf it includes news or announcements, then summarize these too\n"

/-- `generate_prompt` (main.py lines 109-118).  Its declared signature
is `generate_prompt(webpage_text, webpage_title)`; the user content is
the f-string
`f"{USER_PROMPT_TITLE_TEMPLATE} {webpage_title}\n{USER_PROMPT_CONTENT_TEMPLATE}:\n{webpage_text}"`. -/
def generate_prompt (webpage_text webpage_title : String) : List Message :=
  [⟨"system", SYSTEM_PROMPT⟩,
   ⟨"user",
    USER_PROMPT_TITLE_TEMPLATE ++ " " ++ webpage_title ++ "\n"
      ++ USER_PROMPT_CONTENT_TEMPLATE ++ ":\n" ++ webpage_text⟩]

/-- Python `str(x)` for an optional string: `None` renders as `"None"`
inside an f-string. -/
def pyStr : Option String → String
  | some s => s
  | none => "None"

/-- The messages `Website.summarize` sends (main.py line 124):
`generate_prompt(self.title, self.text)` — `self.title` is passed as
the FIRST positional argument `webpage_text`, and `self.text` as the
SECOND positional argument `webpage_title`. -/
def summarizeMessages (title : Option String) (text : String) : List Message :=
  generate_prompt (pyStr title) text

/-- Python `str.startswith` on character lists. -/
def listIsPrefix : List Char → List Char → Bool
  | [], _ => true
  | _ :: _, [] => false
  | a :: as, b :: bs => a == b && listIsPrefix as bs

/-- Python `s.startswith(pre)`. -/
def startswith (s pre : String) : Bool :=
  listIsPrefix pre.data s.data

/-- `Website.ensure_http_format` (main.py lines 46-50). -/
def ensure_http_format (url : String) : String :=
  if !startswith url "http://" && !startswith url "https://" then
    "http://" ++ url
  else url

/-- A character allowed in a URI scheme name. -/
def isSchemeChar (c : Char) : Bool :=
  c.isAlpha || c.isDigit || c == '+' || c == '-' || c == '.'

/-- Specification-side predicate: the string carries an explicit scheme,
i.e. it starts with a nonempty run of scheme characters followed by
`"://"`. -/
def hasExplicitScheme (s : String) : Bool :=
  let sch := s.data.takeWhile (fun c => c != ':')
  !sch.isEmpty && sch.all isSchemeChar &&
    listIsPrefix [':', '/', '/'] (s.data.drop sch.length)

/-- An HTTP response as seen by `scrape_using_requests`: a status code
and the parsed content of the response body. -/
structure HttpResponse where
  status : Nat
  content : Dom

/-- `Website.scrape_using_requests` (main.py lines 74-80): the response
body is read with `response.read()` and handed to `__beautify`
unconditionally — the HTTP status code is never inspected (there is no
`raise_for_status` and aiohttp does not raise for non-success statuses
by default). -/
def scrape_using_requests (resp : HttpResponse) : Except String ExtractedContent :=
  beautify resp.content

/-- One invocation of the rendered-browser fetch: whether navigation
(`driver.get`, line 101) succeeds, whether reading `driver.page_source`
(line 103) succeeds, and the rendered document when it does. -/
structure SeleniumRun where
  navOk : Bool
  readOk : Bool
  page : Dom

/-- Outcome of `_scrape_using_selenium_sync`: the returned value or the
propagated exception, plus whether the spawned chrome process is still
running when control leaves the function. -/
structure SeleniumOutcome where
  result : Except String ExtractedContent
  driverRunning : Bool

/-- `Website._scrape_using_selenium_sync` (main.py lines 89-106), after
the driver has been spawned (line 99).  The body is straight-line code
with no try/finally: `driver.get` (101), `time.sleep(5)` (102), the
`page_source` read (103), `driver.quit()` (104), then `__beautify`
(106).  An exception at line 101 or 103 propagates before line 104 runs,
leaving the process running; `driver.quit()` executes only when
navigation and the read both succeed, and `__beautify` runs after the
quit. -/
def scrape_using_selenium_sync (r : SeleniumRun) : SeleniumOutcome :=
  if r.navOk then
    if r.readOk then ⟨beautify r.page, false⟩
    else ⟨Except.error "WebDriverException: page_source read failed", true⟩
  else ⟨Except.error "WebDriverException: navigation failed", true⟩

/-- The slot list `asyncio.gather` maintains for `main`'s task list
(main.py lines 178-183), in the all-success case: one slot per task,
indexed by the task's position in the input list; `sched` is the order
in which the concurrent pipelines complete, and a pipeline completing
writes its result into its own slot.  `pipe` is the (deterministic)
summary each URL's pipeline produces. -/
def runSchedule (pipe : String → String) (urls : List String)
    (sched : List Nat) : List (Option String) :=
  sched.foldl (fun slots i => slots.set i (some (pipe (urls.getD i ""))))
    (List.replicate urls.length none)

/-- The coordinator of `main` (main.py lines 178-188) in the all-success
case: `asyncio.gather` returns the completed slots in task order and the
print loop pairs them with `args.urls` via `zip` (line 186). -/
def coordinator (pipe : String → String) (urls : List String)
    (sched : List Nat) : List (String × String) :=
  urls.zip ((runSchedule pipe urls sched).map (fun o => o.getD ""))

/-- `asyncio.gather` over fallible pipelines (main.py line 183): if any
task raises, the exception propagates out of `await asyncio.gather`;
otherwise the list of results is returned in task order. -/
def gatherE (pipe : String → Except String String) :
    List String → Except String (List String)
  | [] => Except.ok []
  | u :: rest =>
    match pipe u, gatherE pipe rest with
    | Except.error e, _ => Except.error e
    | Except.ok _, Except.error e => Except.error e
    | Except.ok s, Except.ok l => Except.ok (s :: l)

/-- The `(url, summary)` blocks the print loop of `main` emits
(main.py lines 185-188): when `asyncio.gather` raises, the exception
propagates out of `main` and the loop never runs, so nothing is
printed. -/
def printedBlocks (pipe : String → Except String String)
    (urls : List String) : List (String × String) :=
  match gatherE pipe urls with
  | Except.error _ => []
  | Except.ok results => urls.zip results

/-! ## Helper lemmas -/

theorem listIsPrefix_append (p t : List Char) :
    listIsPrefix p (p ++ t) = true := by
  induction p with
  | nil => rfl
  | cons a as ih => simp [listIsPrefix, ih]

theorem listIsPrefix_exists {p s : List Char}
    (h : listIsPrefix p s = true) : ∃ t, s = p ++ t := by
  induction p generalizing s with
  | nil => exact ⟨s, rfl⟩
  | cons a as ih =>
    cases s with
    | nil => simp [listIsPrefix] at h
    | cons b bs =>
      simp [listIsPrefix] at h
      obtain ⟨hab, hp⟩ := h
      obtain ⟨t, ht⟩ := ih hp
      exact ⟨t, by simp [hab, ht]⟩

theorem hasExplicitScheme_of_http (t : List Char) :
    hasExplicitScheme ⟨"http://".data ++ t⟩ = true := rfl

theorem hasExplicitScheme_of_https (t : List Char) :
    hasExplicitScheme ⟨"https://".data ++ t⟩ = true := rfl

theorem startswith_string_append (p t : String) :
    startswith (p ++ t) p = true := by
  unfold startswith
  rw [String.data_append]
  exact listIsPrefix_append p.data t.data

theorem findTag_eq_none_of_not_contains (tag : String) (d : Dom)
    (h : containsTag tag d = false) : findTag tag d = none := by
  induction d with
  | nil => rfl
  | text s next ih => exact ih h
  | elem t cs next ihc ihn =>
    rw [containsTag, Bool.or_eq_false_iff, Bool.or_eq_false_iff] at h
    obtain ⟨⟨ht, hc⟩, hn⟩ := h
    simp [findTag, ht, ihc hc, ihn hn]

theorem allStrings_stripDom (tags : List String) (d : Dom) :
    allStrings (stripDom tags d) = visibleStrings tags d := by
  induction d with
  | nil => rfl
  | text s next ih => simp [stripDom, allStrings, visibleStrings, ih]
  | elem t cs next ihc ihn =>
    by_cases h : t ∈ tags
    · simp [stripDom, visibleStrings, h, ihn]
    · simp [stripDom, allStrings, visibleStrings, h, ihc, ihn]

theorem foldl_set_length {α : Type} (f : Nat → α) (sched : List Nat)
    (acc : List α) :
    (sched.foldl (fun a i => a.set i (f i)) acc).length = acc.length := by
  induction sched generalizing acc with
  | nil => rfl
  | cons i rest ih => rw [List.foldl_cons, ih, List.length_set]

theorem foldl_set_not_mem {α : Type} (f : Nat → α) (sched : List Nat)
    (j : Nat) (hj : j ∉ sched) (acc : List α) :
    (sched.foldl (fun a i => a.set i (f i)) acc)[j]? = acc[j]? := by
  induction sched generalizing acc with
  | nil => rfl
  | cons i rest ih =>
    have hji : i ≠ j := by
      intro h
      exact hj (h ▸ List.mem_cons_self i rest)
    rw [List.foldl_cons, ih (fun hm => hj (List.mem_cons_of_mem i hm)),
      List.getElem?_set_ne hji]

theorem foldl_set_mem {α : Type} (f : Nat → α) (sched : List Nat)
    (j : Nat) (acc : List α) (hj : j < acc.length) (hmem : j ∈ sched) :
    (sched.foldl (fun a i => a.set i (f i)) acc)[j]? = some (f j) := by
  induction sched generalizing acc with
  | nil => cases hmem
  | cons i rest ih =>
    rw [List.foldl_cons]
    by_cases hm : j ∈ rest
    · exact ih (acc.set i (f i)) (by simpa using hj) hm
    · have hij : j = i := by
        cases hmem with
        | head => rfl
        | tail _ hmem' => exact absurd hmem' hm
      subst hij
      rw [foldl_set_not_mem f rest j hm]
      exact List.getElem?_set_self hj

theorem zip_self_map {α β : Type} (l : List α) (g : α → β) :
    l.zip (l.map g) = l.map (fun a => (a, g a)) := by
  induction l with
  | nil => rfl
  | cons a t ih => simp [ih]

theorem runSchedule_perm (pipe : String → String) (urls : List String)
    (sched : List Nat) (hp : sched.Perm (List.range urls.length)) :
    runSchedule pipe urls sched = urls.map (fun u => some (pipe u)) := by
  apply List.ext_getElem?
  intro j
  by_cases hj : j < urls.length
  · have hmem : j ∈ sched := hp.mem_iff.mpr (List.mem_range.mpr hj)
    unfold runSchedule
    rw [foldl_set_mem _ _ _ _ (by simpa using hj) hmem, List.getElem?_map,
      List.getElem?_eq_getElem hj]
    simp [List.getD_eq_getElem urls "" hj, List.getElem?_eq_getElem hj]
  · push_neg at hj
    rw [List.getElem?_eq_none (by simpa [runSchedule, foldl_set_length]),
      List.getElem?_eq_none (by simpa)]

theorem gatherE_error_of_mem (pipe : String → Except String String)
    (u e : String) (he : pipe u = Except.error e) :
    ∀ urls : List String, u ∈ urls →
      ∃ e', gatherE pipe urls = Except.error e'
  | [], hu => absurd hu (List.not_mem_nil u)
  | a :: rest, hu => by
    cases hu with
    | head => exact ⟨e, by simp [gatherE, he]⟩
    | tail _ hmem =>
      obtain ⟨e', hg⟩ := gatherE_error_of_mem pipe u e he rest hmem
      cases hp : pipe a with
      | error e2 => exact ⟨e2, by simp [gatherE, hp]⟩
      | ok s => exact ⟨e', by simp [gatherE, hp, hg]⟩

/-- A markup document with no body element (`<html><p>Hello</p></html>`
parsed by html.parser, which does not synthesize missing body tags). -/
def noBodySoup : Dom :=
  Dom.elem "html" (Dom.elem "p" (Dom.text "Hello" Dom.nil) Dom.nil) Dom.nil

/-- A markup document with a body but no title element. -/
def noTitleSoup : Dom := Dom.elem "body" (Dom.text "hi" Dom.nil) Dom.nil

/-- The children forest of the body element of `mockedSoup`. -/
def mockedBodyCs : Dom :=
  Dom.elem "script" (Dom.text "x" Dom.nil)
    (Dom.elem "p" (Dom.text "Hello world" Dom.nil) Dom.nil)

/-! ## Claim theorems -/

/-- Claim C1: for every input target list and every completion order of
the concurrent pipelines (any permutation of the task indices), the
coordinator's output pairs each input URL with its own pipeline's
summary, in the same order as the input list. -/
theorem coordinator_preserves_input_order (pipe : String → String)
    (urls : List String) (sched : List Nat)
    (hp : sched.Perm (List.range urls.length)) :
    coordinator pipe urls sched = urls.map (fun u => (u, pipe u)) := by
  unfold coordinator
  rw [runSchedule_perm pipe urls sched hp, List.map_map]
  have hcomp : ((fun o => Option.getD o "") ∘ fun u => some (pipe u)) =
      fun u => pipe u := rfl
  rw [hcomp, zip_self_map]

/-- Witness for C1: inputs `[A, B, C]` with completion order
`[1, 0, 2]` (B's pipeline completes first) still yield output blocks in
input order, each URL paired with its own summary. -/
theorem coordinator_preserves_input_order_witness :
    ([1, 0, 2] : List Nat).Perm (List.range 3) ∧
    coordinator (fun u => "summary:" ++ u) ["A", "B", "C"] [1, 0, 2] =
      [("A", "summary:A"), ("B", "summary:B"), ("C", "summary:C")] :=
  ⟨by decide,
   (coordinator_preserves_input_order (fun u => "summary:" ++ u)
      ["A", "B", "C"] [1, 0, 2] (by decide)).trans (by rfl)⟩

set_option maxRecDepth 8192 in
/-- Claim C2 (code bug): the summarizer does send exactly two messages
(a fixed system instruction and one user message), but the call site
`generate_prompt(self.title, self.text)` feeds `self.title` into the
`webpage_text` parameter and `self.text` into the `webpage_title`
parameter, so for the mocked page (extracted title `"Example"`, text
`"Hello world"`) the user message embeds the BODY TEXT after the
`website titled` template and the TITLE after the content template —
the opposite of the claim. -/
theorem summarize_prompt_swaps_title_and_text :
    beautify mockedSoup = Except.ok ⟨some "Example", "Hello world"⟩ ∧
    summarizeMessages (some "Example") "Hello world" =
      [⟨"system", SYSTEM_PROMPT⟩,
       ⟨"user",
        USER_PROMPT_TITLE_TEMPLATE ++ " " ++ "Hello world" ++ "\n"
          ++ USER_PROMPT_CONTENT_TEMPLATE ++ ":\n" ++ "Example"⟩] ∧
    summarizeMessages (some "Example") "Hello world" ≠
      [⟨"system", SYSTEM_PROMPT⟩,
       ⟨"user",
        USER_PROMPT_TITLE_TEMPLATE ++ " " ++ "Example" ++ "\n"
          ++ USER_PROMPT_CONTENT_TEMPLATE ++ ":\n" ++ "Hello world"⟩] :=
  ⟨rfl, rfl, by decide⟩

/-- Claim C3 (code bug): for markup with no body element, line 67
(`soup.body(IRRELEVANT_TAGS)`) calls `None`, so extraction raises
`TypeError` instead of returning empty text. -/
theorem beautify_raises_on_missing_body :
    beautify noBodySoup =
      Except.error "TypeError: NoneType object is not callable" := rfl

/-- Claim C4 counterexample: a response with status 404 is NOT treated
as a fatal error — the fetch returns the extracted content instead of
raising (the status code is never inspected). -/
theorem scrape_using_requests_404_returns_content :
    scrape_using_requests ⟨404, mockedSoup⟩ =
      Except.ok ⟨some "Example", "Hello world"⟩ := rfl

/-- Claim C4 amended: the plain-HTTP fetch never inspects the HTTP
status code; for any two statuses and the same response content the
result is identical, and the content is returned (not raised) for
non-success statuses. -/
theorem scrape_using_requests_ignores_status (s₁ s₂ : Nat) (c : Dom) :
    scrape_using_requests ⟨s₁, c⟩ = scrape_using_requests ⟨s₂, c⟩ := rfl

/-- Claim C5 (code bug): `_scrape_using_selenium_sync` has no
try/finally, so when navigation (`driver.get`) or the `page_source`
read raises, control leaves the function before `driver.quit()` and the
browser process is still running (leaked); it is terminated only on the
success path. -/
theorem selenium_process_leaked_on_error :
    (scrape_using_selenium_sync ⟨false, true, mockedSoup⟩).driverRunning
        = true ∧
    (scrape_using_selenium_sync ⟨true, false, mockedSoup⟩).driverRunning
        = true ∧
    (scrape_using_selenium_sync ⟨true, true, mockedSoup⟩).driverRunning
        = false :=
  ⟨rfl, rfl, rfl⟩

/-- Claim C6: a URL with no explicit scheme gets `"http://"` prepended,
and a URL that already starts with `"http://"` or `"https://"` is
returned unchanged. -/
theorem ensure_http_format_scheme_cases (url : String) :
    (hasExplicitScheme url = false →
      ensure_http_format url = "http://" ++ url) ∧
    ((startswith url "http://" = true ∨ startswith url "https://" = true) →
      ensure_http_format url = url) := by
  constructor
  · intro h
    have h1 : startswith url "http://" = false := by
      cases hc : startswith url "http://" with
      | false => rfl
      | true =>
        obtain ⟨t, ht⟩ := listIsPrefix_exists hc
        have hu : url = ⟨"http://".data ++ t⟩ := by
          cases url with
          | mk d => exact congrArg String.mk ht
        have htrue : hasExplicitScheme url = true := by
          rw [hu]
          exact hasExplicitScheme_of_http t
        rw [h] at htrue
        exact Bool.noConfusion htrue
    have h2 : startswith url "https://" = false := by
      cases hc : startswith url "https://" with
      | false => rfl
      | true =>
        obtain ⟨t, ht⟩ := listIsPrefix_exists hc
        have hu : url = ⟨"https://".data ++ t⟩ := by
          cases url with
          | mk d => exact congrArg String.mk ht
        have htrue : hasExplicitScheme url = true := by
          rw [hu]
          exact hasExplicitScheme_of_https t
        rw [h] at htrue
        exact Bool.noConfusion htrue
    simp [ensure_http_format, h1, h2]
  · intro h
    cases h with
    | inl h1 => simp [ensure_http_format, h1]
    | inr h2 => simp [ensure_http_format, h2]

/-- Witness for C6: `"example.com"` (no scheme) gets the plain-HTTP
prefix; `"https://a.org"` is unchanged. -/
theorem ensure_http_format_scheme_cases_witness :
    hasExplicitScheme "example.com" = false ∧
    ensure_http_format "example.com" = "http://" ++ "example.com" ∧
    startswith "https://a.org" "https://" = true ∧
    ensure_http_format "https://a.org" = "https://a.org" :=
  ⟨rfl, (ensure_http_format_scheme_cases "example.com").1 rfl,
   rfl, (ensure_http_format_scheme_cases "https://a.org").2 (Or.inr rfl)⟩

/-- Claim C7: whenever extraction completes on markup containing no
title element, the returned title is the sentinel `"No title found"`
(line 66 computes the sentinel exactly when `soup.title` is falsy). -/
theorem beautify_title_sentinel_when_no_title (soup : Dom)
    (r : ExtractedContent) (h : containsTag "title" soup = false)
    (hr : beautify soup = Except.ok r) :
    r.title = some "No title found" := by
  have hf : findTag "title" soup = none :=
    findTag_eq_none_of_not_contains _ _ h
  cases hb : findTag "body" soup with
  | none => simp [beautify, hf, hb] at hr
  | some p =>
    simp [beautify, hf, hb] at hr
    rw [← hr]

/-- Witness for C7: a document with a body and no title extracts the
sentinel title. -/
theorem beautify_title_sentinel_when_no_title_witness :
    containsTag "title" noTitleSoup = false ∧
    beautify noTitleSoup = Except.ok ⟨some "No title found", "hi"⟩ ∧
    (ExtractedContent.mk (some "No title found") "hi").title
      = some "No title found" :=
  ⟨rfl, rfl,
   beautify_title_sentinel_when_no_title noTitleSoup
     ⟨some "No title found", "hi"⟩ rfl rfl⟩

/-- Claim C8: the extracted body text is assembled exclusively from the
text nodes of the body subtree that are NOT inside any element of an
excluded tag type (script, style, img, input, head, title, meta,
document root): decomposing the matches of `IRRELEVANT_TAGS` and then
joining the remaining strings equals the walk that skips every excluded
subtree outright, so no text content of an excluded element reaches the
output. -/
theorem extracted_text_excludes_denylisted_subtrees (soup : Dom)
    (t : String) (bodyCs : Dom) (r : ExtractedContent)
    (hb : findTag "body" soup = some (t, bodyCs))
    (hr : beautify soup = Except.ok r) :
    r.text = joinSep "\n"
      (((visibleStrings IRRELEVANT_TAGS bodyCs).map pyStrip).filter
        (fun s => s ≠ "")) := by
  simp [beautify, hb] at hr
  rw [← hr]
  unfold get_text
  rw [allStrings_stripDom]

/-- Witness for C8: on the mocked page, whose body holds
`<script>x</script><p>Hello world</p>`, the extracted text is built
from the non-excluded text nodes only (the script content `x` is
gone). -/
theorem extracted_text_excludes_denylisted_subtrees_witness :
    findTag "body" mockedSoup = some ("body", mockedBodyCs) ∧
    beautify mockedSoup = Except.ok ⟨some "Example", "Hello world"⟩ ∧
    (ExtractedContent.mk (some "Example") "Hello world").text
      = joinSep "\n"
        (((visibleStrings IRRELEVANT_TAGS mockedBodyCs).map pyStrip).filter
          (fun s => s ≠ "")) :=
  ⟨rfl, rfl,
   extracted_text_excludes_denylisted_subtrees mockedSoup "body"
     mockedBodyCs ⟨some "Example", "Hello world"⟩ rfl rfl⟩

/-- Claim C9: if any one target's pipeline raises, the exception
propagates out of `asyncio.gather` and `main`, so the print loop never
runs and no `(url, summary)` block is printed for any target, including
the ones whose pipelines succeeded. -/
theorem printed_blocks_empty_when_any_pipeline_fails
    (pipe : String → Except String String) (urls : List String)
    (u e : String) (hu : u ∈ urls) (he : pipe u = Except.error e) :
    printedBlocks pipe urls = [] := by
  obtain ⟨e', hg⟩ := gatherE_error_of_mem pipe u e he urls hu
  simp [printedBlocks, hg]

/-- A concrete pipeline for the C9 witness: the pipeline of `"bad"`
raises, the others succeed. -/
def pipeW : String → Except String String :=
  fun u =>
    if u == "bad" then Except.error "boom"
    else Except.ok ("summary:" ++ u)

/-- Witness for C9: with inputs `["good", "bad"]` where only `"bad"`'s
pipeline fails, nothing at all is printed — not even `"good"`'s
result. -/
theorem printed_blocks_empty_when_any_pipeline_fails_witness :
    "bad" ∈ ["good", "bad"] ∧ pipeW "bad" = Except.error "boom" ∧
    printedBlocks pipeW ["good", "bad"] = [] :=
  ⟨by decide, rfl,
   printed_blocks_empty_when_any_pipeline_fails pipeW ["good", "bad"]
     "bad" "boom" (by decide) rfl⟩

/-- Claim C10: URL normalization is idempotent — a second application
of `ensure_http_format` never prepends another prefix. -/
theorem ensure_http_format_idempotent (url : String) :
    ensure_http_format (ensure_http_format url) = ensure_http_format url := by
  cases h1 : startswith url "http://" with
  | true => simp [ensure_http_format, h1]
  | false =>
    cases h2 : startswith url "https://" with
    | true => simp [ensure_http_format, h1, h2]
    | false => simp [ensure_http_format, h1, h2, startswith_string_append]
